import Mathlib

/-!
Verification of the hacker-stories application (src/App.js).

The embedding models:
  * the story records and the reducer state (`Story`, `StoriesState`);
  * the four-case `storiesReducer`, with the `default: throw` branch
    modelled by `Except`;
  * JavaScript truthiness on strings (`String.jsTruthy`), needed by the
    `localStorage.getItem(key) || initialState` startup read and by the
    `disabled={!searchTerm}` submit control;
  * the `useSemiPersistentState` startup read over an abstract key/value
    store;
  * the `App` component's `searchTerm`/`url` state with its
    `handleSearchInput` / `handleSearchSubmit` handlers;
  * `handleFetchStories` as a function from the outcome of the single
    awaited GET request to the list of actions it dispatches.
-/

/-- One search-result item, as consumed by the reducer and the list view
(fields of the Algolia response records used by the app). -/
structure Story where
  objectID : String
  title : String
  url : String
  author : String
  num_comments : Nat
  points : Nat
  deriving Repr, DecidableEq

/-- The reducer-owned state: `{ data, isLoading, isError }`. -/
structure StoriesState where
  data : List Story
  isLoading : Bool
  isError : Bool
  deriving Repr, DecidableEq

/-- The initial state passed to `React.useReducer`:
`{ data: [], isLoading: false, isError: false }`. -/
def initialStoriesState : StoriesState :=
  { data := [], isLoading := false, isError := false }

/-- Actions dispatched to `storiesReducer`.  The four recognized kinds carry
the payloads the reducer reads (`action.payload` is the hits array for
success and the item to remove for `REMOVE_STORY`); `other ty` stands for
any action whose `type` string `ty` is not one of the four cases. -/
inductive StoriesAction where
  | storiesFetchInit : StoriesAction
  | storiesFetchSuccess (payload : List Story) : StoriesAction
  | storiesFetchFailure : StoriesAction
  | removeStory (payload : Story) : StoriesAction
  | other (ty : String) : StoriesAction
  deriving Repr, DecidableEq

/-- The `action.type` string, as in the JavaScript switch. -/
def StoriesAction.type : StoriesAction → String
  | .storiesFetchInit => "STORIES_FETCH_INIT"
  | .storiesFetchSuccess _ => "STORIES_FETCH_SUCCESS"
  | .storiesFetchFailure => "STORIES_FETCH_FAILURE"
  | .removeStory _ => "REMOVE_STORY"
  | .other ty => ty

/-- The four `case` labels of the reducer's switch statement. -/
def recognizedActionTypes : List String :=
  ["STORIES_FETCH_INIT", "STORIES_FETCH_SUCCESS",
   "STORIES_FETCH_FAILURE", "REMOVE_STORY"]

/-- `storiesReducer` from src/App.js.  `switch (action.type)` with the four
cases; the `default` branch (`throw new Error()`) is modelled as
`Except.error`.  `REMOVE_STORY` keeps the stories for which
`action.payload.objectID !== story.objectID`. -/
def storiesReducer (state : StoriesState) (action : StoriesAction) :
    Except Unit StoriesState :=
  match action with
  | .storiesFetchInit =>
      .ok { state with isLoading := true, isError := false }
  | .storiesFetchSuccess payload =>
      .ok { state with isLoading := false, isError := false, data := payload }
  | .storiesFetchFailure =>
      .ok { state with isLoading := false, isError := true }
  | .removeStory payload =>
      .ok { state with
            data := state.data.filter
              (fun story => payload.objectID ≠ story.objectID) }
  | .other _ => .error ()

/-- Folding the reducer over a sequence of dispatched actions; an action on
which the reducer throws aborts the whole sequence. -/
def applyActions (state : StoriesState) : List StoriesAction → Except Unit StoriesState
  | [] => .ok state
  | a :: rest =>
      match storiesReducer state a with
      | .ok s => applyActions s rest
      | .error e => .error e

/-- JavaScript truthiness of a string: `""` is falsy, any other string is
truthy. -/
def String.jsTruthy (s : String) : Bool :=
  s ≠ ""

/-- `localStorage.getItem(key) || initialState`: `getItem` returns the
stored string or `null` (`Option.none`); `||` yields the left operand when
it is truthy and the right operand otherwise (both `null` and `""` are
falsy). -/
def jsOrDefault (stored : Option String) (initialState : String) : String :=
  match stored with
  | none => initialState
  | some v => if v.jsTruthy then v else initialState

/-- An abstract key/value store standing for `localStorage`:
`get key` returns the stored string or `none`. -/
def Storage := String → Option String

/-- The value `useSemiPersistentState(key, initialState)` puts into
`React.useState` at mount: `localStorage.getItem(key) || initialState`. -/
def useSemiPersistentStateInit (storage : Storage) (key : String)
    (initialState : String) : String :=
  jsOrDefault (storage key) initialState

/-- `API_ENDPOINT` from src/App.js. -/
def API_ENDPOINT : String := "https://hn.algolia.com/api/v1/search?query="

/-- The two pieces of `App` state the search handlers touch: `searchTerm`
(from `useSemiPersistentState`) and `url` (from `React.useState`). -/
structure AppState where
  searchTerm : String
  url : String
  deriving Repr, DecidableEq

/-- `handleSearchInput`: `setSearchTerm(event.target.value)` — only the
search term is updated. -/
def handleSearchInput (s : AppState) (value : String) : AppState :=
  { s with searchTerm := value }

/-- `handleSearchSubmit`: `setUrl(API_ENDPOINT + searchTerm)` — only the
url is updated, from the current search term. -/
def handleSearchSubmit (s : AppState) : AppState :=
  { s with url := API_ENDPOINT ++ s.searchTerm }

/-- The body of the axios response: `result.data` with its `hits` array. -/
structure ResponseData where
  hits : List Story
  deriving Repr, DecidableEq

/-- The outcome of the single awaited `axios.get(url)`: it either resolves
with a response or rejects. -/
inductive FetchOutcome where
  | resolved (data : ResponseData) : FetchOutcome
  | rejected : FetchOutcome
  deriving Repr, DecidableEq

/-- `handleFetchStories` as the sequence of actions it dispatches for a
given outcome of its one awaited GET: `FETCH_INIT` first, then in the `try`
a success dispatch with `result.data.hits`, or in the `catch` a failure
dispatch. -/
def handleFetchStories (outcome : FetchOutcome) : List StoriesAction :=
  StoriesAction.storiesFetchInit ::
    (match outcome with
     | .resolved result => [StoriesAction.storiesFetchSuccess result.hits]
     | .rejected => [StoriesAction.storiesFetchFailure])

/-- Whether an action is one of the two fetch-terminating dispatches. -/
def StoriesAction.isFetchResult : StoriesAction → Bool
  | .storiesFetchSuccess _ => true
  | .storiesFetchFailure => true
  | _ => false

/-- `disabled={!searchTerm}` on the submit button of `SearchForm`. -/
def submitDisabled (searchTerm : String) : Bool :=
  ! searchTerm.jsTruthy

/-- The flags part of the invariant: `isLoading` and `isError` are never
both true. -/
def flagsExclusive (s : StoriesState) : Prop :=
  ¬ (s.isLoading = true ∧ s.isError = true)

lemma storiesReducer_preserves_flagsExclusive
    (s t : StoriesState) (a : StoriesAction)
    (hs : flagsExclusive s) (h : storiesReducer s a = .ok t) :
    flagsExclusive t := by
  cases a <;> simp [storiesReducer] at h <;> subst h <;>
    simp [flagsExclusive] at hs ⊢
  exact hs

lemma applyActions_flagsExclusive
    (acts : List StoriesAction) (s t : StoriesState)
    (hs : flagsExclusive s) (h : applyActions s acts = .ok t) :
    flagsExclusive t := by
  induction acts generalizing s with
  | nil =>
      simp [applyActions] at h
      subst h; exact hs
  | cons a rest ih =>
      simp only [applyActions] at h
      cases hr : storiesReducer s a with
      | ok s1 =>
          rw [hr] at h
          exact ih s1 (storiesReducer_preserves_flagsExclusive s s1 a hs hr) h
      | error e =>
          rw [hr] at h
          exact absurd h (by simp)

/-- C1: Starting from the initial state, any sequence of dispatches
accepted by `storiesReducer` (in particular any sequence of the four
recognized action kinds) leads to a state in which `isLoading` and
`isError` are not both true. -/
theorem stories_flags_never_both_true
    (acts : List StoriesAction) (t : StoriesState)
    (h : applyActions initialStoriesState acts = .ok t) :
    ¬ (t.isLoading = true ∧ t.isError = true) :=
  applyActions_flagsExclusive acts initialStoriesState t
    (by simp [flagsExclusive, initialStoriesState]) h

/-- Witness for C1 on a concrete dispatch sequence. -/
theorem stories_flags_never_both_true_witness :
    ¬ (((applyActions initialStoriesState
         [StoriesAction.storiesFetchInit, StoriesAction.storiesFetchFailure]).toOption.getD
           initialStoriesState).isLoading = true ∧
       ((applyActions initialStoriesState
         [StoriesAction.storiesFetchInit, StoriesAction.storiesFetchFailure]).toOption.getD
           initialStoriesState).isError = true) :=
  stories_flags_never_both_true
    [StoriesAction.storiesFetchInit, StoriesAction.storiesFetchFailure]
    ((applyActions initialStoriesState
        [StoriesAction.storiesFetchInit, StoriesAction.storiesFetchFailure]).toOption.getD
      initialStoriesState)
    rfl

/-- C2: `REMOVE_STORY(item)` succeeds, leaves the flags untouched, and its
resulting `data` is a subsequence of the old `data` (relative order kept)
that contains exactly the old records whose identifier differs from
`item.objectID`. -/
theorem removeStory_removes_exactly_matching
    (s : StoriesState) (item : Story) (t : StoriesState)
    (h : storiesReducer s (StoriesAction.removeStory item) = .ok t) :
    t.isLoading = s.isLoading ∧ t.isError = s.isError ∧
    t.data.Sublist s.data ∧
    (∀ story ∈ t.data, story.objectID ≠ item.objectID) ∧
    (∀ story ∈ s.data, story.objectID ≠ item.objectID → story ∈ t.data) := by
  simp only [storiesReducer, Except.ok.injEq] at h
  subst h
  refine ⟨rfl, rfl, List.filter_sublist _, ?_, ?_⟩
  · intro story hmem
    have := List.of_mem_filter hmem
    simp at this
    exact fun hEq => this (hEq.symm)
  · intro story hmem hne
    exact List.mem_filter.mpr ⟨hmem, by simp; exact fun hEq => hne hEq.symm⟩

/-- Witness for C2 at a concrete state and item. -/
theorem removeStory_removes_exactly_matching_witness :
    (let a : Story :=
      { objectID := "1", title := "A", url := "u", author := "x",
        num_comments := 0, points := 0 }
     let b : Story :=
      { objectID := "2", title := "B", url := "v", author := "y",
        num_comments := 1, points := 2 }
     let s : StoriesState := { data := [a, b], isLoading := false,
                               isError := false }
     let t : StoriesState := { data := [b], isLoading := false,
                               isError := false }
     t.isLoading = s.isLoading ∧ t.isError = s.isError ∧
     t.data.Sublist s.data ∧
     (∀ story ∈ t.data, story.objectID ≠ a.objectID) ∧
     (∀ story ∈ s.data, story.objectID ≠ a.objectID → story ∈ t.data)) :=
  removeStory_removes_exactly_matching _ _ _ rfl

/-- C3: `STORIES_FETCH_SUCCESS(payload)` yields
`isLoading = false`, `isError = false`, and `data` equal to the payload
itself, replacing the previous data wholesale. -/
theorem fetchSuccess_replaces_data_wholesale
    (s : StoriesState) (payload : List Story) :
    storiesReducer s (StoriesAction.storiesFetchSuccess payload) =
      .ok { data := payload, isLoading := false, isError := false } := by
  simp [storiesReducer]

/-- C4: `STORIES_FETCH_INIT` and `STORIES_FETCH_FAILURE` both leave `data`
unchanged; init sets `isLoading = true, isError = false`, failure sets
`isLoading = false, isError = true`. -/
theorem fetchInit_and_failure_leave_data_unchanged
    (s : StoriesState) :
    storiesReducer s StoriesAction.storiesFetchInit =
      .ok { data := s.data, isLoading := true, isError := false } ∧
    storiesReducer s StoriesAction.storiesFetchFailure =
      .ok { data := s.data, isLoading := false, isError := true } := by
  constructor <;> simp [storiesReducer]

/-- C5: for every outcome of the single awaited GET, the handler's dispatch
trace starts with `FETCH_INIT` and then contains exactly one
fetch-terminating dispatch — `FETCH_SUCCESS` with the response's `hits`
array when the request resolves, `FETCH_FAILURE` when it rejects. -/
theorem handleFetchStories_init_then_one_result (outcome : FetchOutcome) :
    (handleFetchStories outcome).head? = some StoriesAction.storiesFetchInit ∧
    ((handleFetchStories outcome).filter StoriesAction.isFetchResult).length = 1 ∧
    (∀ result, outcome = FetchOutcome.resolved result →
       handleFetchStories outcome =
         [StoriesAction.storiesFetchInit, StoriesAction.storiesFetchSuccess result.hits]) ∧
    (outcome = FetchOutcome.rejected →
       handleFetchStories outcome =
         [StoriesAction.storiesFetchInit, StoriesAction.storiesFetchFailure]) := by
  cases outcome with
  | resolved result =>
      refine ⟨rfl, ?_, ?_, ?_⟩
      · simp [handleFetchStories, StoriesAction.isFetchResult]
      · intro r hr
        cases hr
        rfl
      · intro hr
        cases hr
  | rejected =>
      refine ⟨rfl, ?_, ?_, ?_⟩
      · simp [handleFetchStories, StoriesAction.isFetchResult]
      · intro r hr
        cases hr
      · intro _
        rfl

/-- C6: the startup read of `useSemiPersistentState("search", "React")`
restores a stored `"Rust"` and falls back to the default `"React"` when
nothing is stored under `"search"`. -/
theorem semiPersistent_init_reads_storage
    (storage : Storage) :
    (storage "search" = some "Rust" →
       useSemiPersistentStateInit storage "search" "React" = "Rust") ∧
    (storage "search" = none →
       useSemiPersistentStateInit storage "search" "React" = "React") := by
  constructor <;> intro h <;>
    simp [useSemiPersistentStateInit, jsOrDefault, String.jsTruthy, h]

/-- C7: the reducer throws on every action whose `type` is none of the four
recognized kinds. -/
theorem storiesReducer_throws_on_unrecognized
    (s : StoriesState) (a : StoriesAction)
    (h : a.type ∉ recognizedActionTypes) :
    storiesReducer s a = .error () := by
  cases a with
  | storiesFetchInit => simp [StoriesAction.type, recognizedActionTypes] at h
  | storiesFetchSuccess payload =>
      simp [StoriesAction.type, recognizedActionTypes] at h
  | storiesFetchFailure => simp [StoriesAction.type, recognizedActionTypes] at h
  | removeStory payload => simp [StoriesAction.type, recognizedActionTypes] at h
  | other ty => rfl

/-- Witness for C7: the reducer throws on an action of type `"RESET"`. -/
theorem storiesReducer_throws_on_unrecognized_witness :
    (StoriesAction.other "RESET").type ∉ recognizedActionTypes ∧
    storiesReducer initialStoriesState (StoriesAction.other "RESET") = .error () :=
  ⟨by decide,
   storiesReducer_throws_on_unrecognized initialStoriesState
     (StoriesAction.other "RESET") (by decide)⟩

/-- C8: a keystroke (`handleSearchInput`) updates the search term and
leaves the url unchanged; only submission (`handleSearchSubmit`) changes
the url, setting it to `API_ENDPOINT ++ searchTerm` for the current search
term. -/
theorem url_changes_only_on_submit (s : AppState) (value : String) :
    (handleSearchInput s value).url = s.url ∧
    (handleSearchInput s value).searchTerm = value ∧
    (handleSearchSubmit s).url = API_ENDPOINT ++ s.searchTerm ∧
    (handleSearchSubmit s).searchTerm = s.searchTerm := by
  exact ⟨rfl, rfl, rfl, rfl⟩

/-- C9: the submit control is disabled exactly when the search term is the
empty string; it is enabled for every non-empty term. -/
theorem submit_disabled_iff_empty (searchTerm : String) :
    submitDisabled searchTerm = true ↔ searchTerm = "" := by
  simp [submitDisabled, String.jsTruthy]

/-- C10: a stored empty string under `"search"` is falsy, so the startup
read yields the default `"React"`, not the stored `""`; any non-empty
stored value is restored as-is. -/
theorem semiPersistent_init_empty_falls_back
    (storage : Storage) (deflt : String) :
    (storage "search" = some "" →
       useSemiPersistentStateInit storage "search" deflt = deflt) ∧
    (∀ v, storage "search" = some v → v ≠ "" →
       useSemiPersistentStateInit storage "search" deflt = v) := by
  constructor
  · intro h
    simp [useSemiPersistentStateInit, jsOrDefault, String.jsTruthy, h]
  · intro v h hne
    simp [useSemiPersistentStateInit, jsOrDefault, String.jsTruthy, h, hne]

/-- Witness for C10 with the constant store mapping every key to `""`. -/
theorem semiPersistent_init_empty_falls_back_witness :
    ((fun _ => some "") : Storage) "search" = some "" ∧
    useSemiPersistentStateInit (fun _ => some "") "search" "React" =
      "React" :=
  ⟨rfl,
   (semiPersistent_init_empty_falls_back (fun _ => some "") "React").1 rfl⟩

/-- Witness for C6 with a concrete store holding `"Rust"` under
`"search"`. -/
theorem semiPersistent_init_reads_storage_witness :
    useSemiPersistentStateInit (fun k => if k = "search" then some "Rust"
      else none) "search" "React" = "Rust" :=
  (semiPersistent_init_reads_storage
      (fun k => if k = "search" then some "Rust" else none)).1 (by simp)

/-- Witness for C5 at the rejected outcome: the trace starts with
`FETCH_INIT` and ends with exactly the failure dispatch. -/
theorem handleFetchStories_init_then_one_result_witness :
    (handleFetchStories FetchOutcome.rejected).head? =
      some StoriesAction.storiesFetchInit ∧
    ((handleFetchStories FetchOutcome.rejected).filter
        StoriesAction.isFetchResult).length = 1 ∧
    handleFetchStories FetchOutcome.rejected =
      [StoriesAction.storiesFetchInit, StoriesAction.storiesFetchFailure] :=
  ⟨(handleFetchStories_init_then_one_result FetchOutcome.rejected).1,
   (handleFetchStories_init_then_one_result FetchOutcome.rejected).2.1,
   (handleFetchStories_init_then_one_result FetchOutcome.rejected).2.2.2 rfl⟩
